import Mathlib

/-!
# Verification of the spotify-viz search ranking and radial projection pipelines

Shallow embedding of the repository's two algorithmic components:

* the unified search ranking component (`normalizeSearchString`, `compareNames`,
  `isLikelyAlbumSearch`, `getMatchScore`, `search`);
* the radial feature-projection component in its two variants
  (`normalizeValue`, `getAveragePath`, `getOpacityScale`), plus the
  track-deduplication step of the page controller.

JavaScript strings are modelled as `List Char`; JavaScript numbers as `ℚ`
(exact rational arithmetic) except where the source computes a transcendental
function (`Math.pow` with fractional exponent, `Math.log`), where `ℝ` or an
abstract function parameter is used.
-/

/-- A JavaScript string, modelled as its list of characters. -/
abbrev Str := List Char

/-- Model of `String.prototype.toLowerCase()` on the ASCII range. -/
def jsToLower (s : Str) : Str := s.map Char.toLower

/-- Whether `sub` occurs contiguously inside `s`: `s.includes(sub)`. -/
def jsIncludes (s sub : Str) : Bool := decide (sub <:+: s)

/-- Whether `s` starts with `sub`: `s.startsWith(sub)`. -/
def jsStartsWith (s sub : Str) : Bool := decide (sub <+: s)

/-- The whitespace characters removed by `String.prototype.trim()`
(ASCII portion: space, tab, line feed, carriage return, vertical tab, form feed). -/
def jsIsWs (c : Char) : Bool :=
  c = ' ' || c = '\t' || c = '\n' || c = '\r' || c = Char.ofNat 11 || c = Char.ofNat 12

/-- Model of `String.prototype.trim()`: drop leading and trailing whitespace. -/
def jsTrim (s : Str) : Str :=
  ((s.dropWhile jsIsWs).reverse.dropWhile jsIsWs).reverse

/-- Model of `.replace(/(^the |^a |^an )/i, '')`: strip one leading article (the
alternation is tried left to right, on input already lower-cased). -/
def stripArticle (s : Str) : Str :=
  if jsStartsWith s (("the ").toList) then s.drop 4
  else if jsStartsWith s (("a ").toList) then s.drop 2
  else if jsStartsWith s (("an ").toList) then s.drop 3
  else s

def isOpenBracket (c : Char) : Bool := c = '(' || c = '['

def isCloseBracket (c : Char) : Bool := c = ')' || c = ']'

/-- Scan for the first closing bracket `)` or `]`, failing at a line
terminator (which `.` in the regex cannot cross); on success return the
remainder after the closer. -/
def splitAtCloser : Str → Option Str
  | [] => none
  | c :: rest =>
    if isCloseBracket c then some rest
    else if c = '\n' || c = '\r' then none
    else splitAtCloser rest

/-- One engine pass of `.replace(/([\(\[]).*?([\)\]])/g, '')`, fuelled by the
string length: at an opening bracket, lazily match up to the nearest closer and
delete the whole bracketed segment; when no closer is reachable the match at
this position fails and scanning resumes at the next character. -/
def stripBracketsAux : Nat → Str → Str
  | 0, s => s
  | _ + 1, [] => []
  | fuel + 1, c :: rest =>
    if isOpenBracket c then
      match splitAtCloser rest with
      | some after => stripBracketsAux fuel after
      | none => c :: stripBracketsAux fuel rest
    else c :: stripBracketsAux fuel rest

/-- Model of `.replace(/([\(\[]).*?([\)\]])/g, '')`: remove every bracketed segment. -/
def stripBrackets (s : Str) : Str := stripBracketsAux s.length s

/-- The fixed punctuation set of `.replace(/[.,\/#!$%\^&\*;:{}=\-_`~()]/g, '')`. -/
def punctChars : Str :=
  ['.', ',', '/', '#', '!', '$', '%', '^', '&', '*', ';', ':',
   Char.ofNat 123, Char.ofNat 125, '=', '-', '_', Char.ofNat 96, '~', '(', ')']

/-- Remove all punctuation characters of the fixed set. -/
def stripPunct (s : Str) : Str := s.filter (fun c => !(punctChars.contains c))

/-- The function `normalizeSearchString` of the search component: lower-case, strip one
leading article, remove bracketed segments, strip punctuation, trim. -/
def normalizeSearchString (s : Str) : Str :=
  jsTrim (stripPunct (stripBrackets (stripArticle (jsToLower s))))

namespace Search

/-- The curated `MAJOR_ARTISTS` set. -/
def MAJOR_ARTISTS : List Str :=
  [("beatles").toList, ("bob dylan").toList, ("pink floyd").toList,
   ("led zeppelin").toList, ("queen").toList, ("david bowie").toList,
   ("rolling stones").toList, ("beach boys").toList, ("the who").toList,
   ("eagles").toList, ("fleetwood mac").toList, ("bruce springsteen").toList]

/-- The function `compareNames`: coarse fuzzy equality of two names after normalization. -/
def compareNames (name1 name2 : Str) : Bool :=
  let n1 := normalizeSearchString name1
  let n2 := normalizeSearchString name2
  n1 == n2 || jsIncludes n1 n2 || jsIncludes n2 n1
    || (("the ").toList ++ n1 == n2) || (("the ").toList ++ n2 == n1)

/-- The `albumIndicators` list of `isLikelyAlbumSearch`. -/
def albumIndicators : List Str :=
  [("album").toList, ("record").toList, ("soundtrack").toList, ("vol").toList,
   ("volume").toList, ("collection").toList, ("deluxe").toList, ("remaster").toList]

/-- The curated `knownAlbums` set of `isLikelyAlbumSearch`. -/
def knownAlbums : List Str :=
  [("rubber soul").toList, ("revolver").toList, ("abbey road").toList,
   ("white album").toList, ("sgt pepper").toList,
   ("dark side of the moon").toList, ("the wall").toList,
   ("led zeppelin iv").toList, ("houses of the holy").toList,
   ("blonde on blonde").toList, ("highway 61").toList,
   ("blood on the tracks").toList]

/-- The function `isLikelyAlbumSearch`: the query contains an album-indicator substring or
exactly matches a curated known album title, after normalization. -/
def isLikelyAlbumSearch (query : Str) : Bool :=
  let normalizedQuery := normalizeSearchString query
  albumIndicators.any (fun indicator => jsIncludes normalizedQuery indicator)
    || knownAlbums.contains normalizedQuery

/-- The discriminant of a `SearchResult`: `'artist' | 'album'`. -/
inductive EntityType
  | artist
  | album
deriving DecidableEq

/-- One entry of an album's `artists?: { name; id? }[]` array (only the name
takes part in scoring). -/
structure ArtistRef where
  name : Str
deriving DecidableEq

/-- The `SearchResult` record: the fields that take part in scoring and
selection. `artists`, `followers` and `popularity` are optional in the source
(`artists?`, `followers?.total`, `popularity?`). -/
structure SearchResult where
  id : Str
  type : EntityType
  name : Str
  artists : Option (List ArtistRef)
  followers : Option ℚ
  popularity : Option ℚ
deriving DecidableEq

/-- The base text-matching score accumulated at the start of `getMatchScore`
(lines 94-102 of the component): 10000 for a `compareNames` match, else 8000
for a one-way normalized-prefix match, else 6000 for a one-way normalized
containment, else 0. -/
def baseTextScore (result : SearchResult) (query : Str) : ℚ :=
  let searchNorm := normalizeSearchString query
  let nameNorm := normalizeSearchString result.name
  if compareNames result.name query then 10000
  else if jsStartsWith nameNorm searchNorm || jsStartsWith searchNorm nameNorm then 8000
  else if jsIncludes nameNorm searchNorm || jsIncludes searchNorm nameNorm then 6000
  else 0

/-- Model of `result.followers?.total || 1`: 1 when absent, and 1 again when the stored
total is 0 (JavaScript `||` treats 0 as falsy). -/
def followersOrOne (followers : Option ℚ) : ℚ :=
  match followers with
  | none => 1
  | some t => if t = 0 then 1 else t

/-- The function `getMatchScore`: the composite relevance score of one candidate for one
query. `jlog` abstracts `Math.log` (a transcendental the artist branch feeds
the follower count to); every other arithmetic operation is exact. -/
def getMatchScore (jlog : ℚ → ℚ) (result : SearchResult) (query : Str) : ℚ :=
  let isAlbumSearch := isLikelyAlbumSearch query
  let score := baseTextScore result query
  match result.type with
  | EntityType.album =>
    let nameMatchScore := score
    let artistMatch :=
      match result.artists with
      | some l => l.any (fun artist => compareNames artist.name query)
      | none => false
    let artistPopularityBoost : ℚ :=
      if (match result.artists with
          | some l => l.any (fun artist =>
              MAJOR_ARTISTS.contains (normalizeSearchString artist.name))
          | none => false) then 5000 else 0
    if isAlbumSearch && decide (0 < nameMatchScore) then
      nameMatchScore * 2 + (result.popularity.getD 0) * 100 + artistPopularityBoost
    else if artistMatch then
      7000 + (result.popularity.getD 0) * 50 + artistPopularityBoost
    else
      nameMatchScore + (result.popularity.getD 0) * 30 + artistPopularityBoost / 2
  | EntityType.artist =>
    let artistNameMatch := compareNames result.name query
    if artistNameMatch then
      score + (result.popularity.getD 0) * 50
        + min 3000 (jlog (followersOrOne result.followers) * 100)
        + (if MAJOR_ARTISTS.contains (normalizeSearchString result.name) then 5000 else 0)
    else if !isAlbumSearch then
      score + (result.popularity.getD 0) * 10
    else
      min score 1000

/-- The function `search` of the component. `api` abstracts the external
Spotify search call, returning the artist items and the album items; the
second component of the result records whether that external call was made.
An empty-after-trim query, or a query equal to the currently selected item's
name, short-circuits to no results without invoking the API; otherwise the
merged candidates are sorted descending by `getMatchScore` (stably, as
`Array.prototype.sort` with comparator `b.score - a.score`). -/
def search (jlog : ℚ → ℚ) (api : Str → List SearchResult × List SearchResult)
    (selectedItem : Option SearchResult) (query : Str) :
    List SearchResult × Bool :=
  if (jsTrim query).isEmpty
      || (match selectedItem with
          | some item => query == item.name
          | none => false) then
    ([], false)
  else
    let response := api query
    let combinedResults := response.1 ++ response.2
    let sortedResults :=
      ((combinedResults.map (fun result => (result, getMatchScore jlog result query))).mergeSort
          (fun a b => decide (b.2 ≤ a.2))).map Prod.fst
    (sortedResults, true)

end Search

/-- The fixed `FEATURES` axis enumeration of the comparison chart (its order
fixes the axis angles). -/
inductive Feature
  | tempo
  | danceability
  | energy
  | acousticness
  | loudness
  | valence
  | duration
deriving DecidableEq

/-- The `FEATURES` array, in source order. -/
def FEATURES : List Feature :=
  [Feature.tempo, Feature.danceability, Feature.energy, Feature.acousticness,
   Feature.loudness, Feature.valence, Feature.duration]

/-- The `Song` interface shared by the visualization components and the page
controller. -/
structure Song where
  id : Str
  name : Str
  acousticness : ℚ
  danceability : ℚ
  energy : ℚ
  instrumentalness : ℚ
  liveness : ℚ
  valence : ℚ
  duration_ms : ℚ
  loudness : ℚ
  tempo : ℚ
  key : ℚ
deriving DecidableEq

namespace Viz3

/-- The `Song | Record<Feature, number>` union that `normalizeValue` of the
ComparisonViz variant accepts: either a raw track, or the averaged
feature record built by `getAveragePath`. -/
inductive SongOrRec
  | song (s : Song)
  | record (r : Feature → ℚ)

/-- The function `normalizeValue` of the ComparisonViz variant, over the union input.
Duration and the pass-through features hand a record's entry back unchanged
(`'duration_ms' in song` distinguishes the cases for duration); tempo clamps
`(tempo - 60) / 120` into [0,1]; loudness computes `(value + 60) / 60` on
either input, a record's already-normalized entry included. -/
def normalizeValue (song : SongOrRec) (feature : Feature) : ℚ :=
  match feature with
  | Feature.duration =>
    let maxDuration : ℚ := 300000
    match song with
    | SongOrRec.song s => s.duration_ms / maxDuration
    | SongOrRec.record r => r Feature.duration
  | Feature.loudness =>
    let value :=
      match song with
      | SongOrRec.song s => s.loudness
      | SongOrRec.record r => r Feature.loudness
    (value + 60) / 60
  | Feature.tempo =>
    let tempo :=
      match song with
      | SongOrRec.song s => s.tempo
      | SongOrRec.record r => r Feature.tempo
    max 0 (min 1 ((tempo - 60) / 120))
  | Feature.danceability =>
    match song with
    | SongOrRec.song s => s.danceability
    | SongOrRec.record r => r Feature.danceability
  | Feature.energy =>
    match song with
    | SongOrRec.song s => s.energy
    | SongOrRec.record r => r Feature.energy
  | Feature.acousticness =>
    match song with
    | SongOrRec.song s => s.acousticness
    | SongOrRec.record r => r Feature.acousticness
  | Feature.valence =>
    match song with
    | SongOrRec.song s => s.valence
    | SongOrRec.record r => r Feature.valence

/-- The scale `radialScale`: linear with domain [0,1] and range [0, radius]. -/
def radialScale (radius v : ℚ) : ℚ := v * radius

/-- The radii of the seven path vertices `generatePoints` produces, in axis
order. Vertex `i` of the rendered path sits at the fixed angle
`i * 2π/7 − π/2`, identical for every song, so two songs produce the same
path string from `generatePathCoordinates` exactly when these radii lists
coincide; the irrational trigonometric factors are therefore left out of the
embedding. -/
def pathRadii (radius : ℚ) (song : SongOrRec) : List ℚ :=
  FEATURES.map (fun feature => radialScale radius (normalizeValue song feature))

/-- The averaged feature record `getAveragePath` builds: `none` for an empty
collection; otherwise the raw tempo average for the tempo entry and the
average of the normalized per-track values for every other entry. -/
def getAverageRecord (songs : List Song) : Option (Feature → ℚ) :=
  if songs.length = 0 then none
  else
    let n : ℚ := songs.length
    let tempoAvg := (songs.foldl (fun sum song => sum + song.tempo) 0) / n
    some (fun feature =>
      if feature = Feature.tempo then tempoAvg
      else (songs.foldl (fun s song => s + normalizeValue (SongOrRec.song song) feature) 0) / n)

/-- The function `getAveragePath`: the averaged record fed through the path projection
(`generatePathCoordinates(averages)`), at the radii level. -/
def getAveragePath (radius : ℚ) (songs : List Song) : Option (List ℚ) :=
  (getAverageRecord songs).map (fun averages => pathRadii radius (SongOrRec.record averages))

/-- The four opacity values derived from the collection size. -/
structure Opacities where
  fill : ℝ
  stroke : ℝ
  hoverFill : ℝ
  hoverStroke : ℝ

/-- The function `getOpacityScale` of the ComparisonViz variant: baseline
`max(0.004, 1 / n^0.5)`, scaled by 0.04 for fill and 4 for stroke. -/
noncomputable def getOpacityScale (numTracks : ℝ) : Opacities :=
  let baseOpacity := max 0.004 (1 / numTracks ^ (0.5 : ℝ))
  { fill := baseOpacity * 0.04
    stroke := baseOpacity * 4
    hoverFill := 0.08
    hoverStroke := 0.5 }

end Viz3

namespace Viz2

/-- The function `normalizeValue` of the earlier ComparisonViz variant (Song input only):
same duration and loudness formulas, tempo window 40-200 BPM. -/
def normalizeValue (song : Song) (feature : Feature) : ℚ :=
  match feature with
  | Feature.duration => song.duration_ms / 300000
  | Feature.loudness => (song.loudness + 60) / 60
  | Feature.tempo => max 0 (min 1 ((song.tempo - 40) / 160))
  | Feature.danceability => song.danceability
  | Feature.energy => song.energy
  | Feature.acousticness => song.acousticness
  | Feature.valence => song.valence

/-- The function `getOpacityScale` of the earlier variant: baseline
`max(0.008, 1 / n^0.6)`, scaled by 0.3 for fill and 1 for stroke. -/
noncomputable def getOpacityScale (numTracks : ℝ) : Viz3.Opacities :=
  let baseOpacity := max 0.008 (1 / numTracks ^ (0.6 : ℝ))
  { fill := baseOpacity * 0.3
    stroke := baseOpacity * 1
    hoverFill := 0.08
    hoverStroke := 0.5 }

end Viz2

namespace Page

/-- A track as the page controller holds it before feature lookup. -/
structure Track where
  id : Str
  name : Str
deriving DecidableEq

/-- One `map.set(track.id, track)` step of building
`new Map(tracks.map(track => [track.id, track]))`: an existing key keeps its
position and takes the new value; a new key is appended. -/
def mapInsert (m : List (Str × Track)) (track : Track) : List (Str × Track) :=
  if track.id ∈ m.map Prod.fst then
    m.map (fun p => if p.1 = track.id then (p.1, track) else p)
  else m ++ [(track.id, track)]

/-- Model of `Array.from(new Map(tracks.map(track => [track.id, track])).values())`:
the deduplicated track collection, in Map insertion order. -/
def uniqueTracks (tracks : List Track) : List Track :=
  (tracks.foldl mapInsert []).map Prod.snd

/-- Modelled from the spec's words for comparison: the key sequence an
ordered deduplication keeps, each identifier once, in order of first
occurrence. -/
def specFirstOccurrenceKeys (keys : List Str) : List Str :=
  keys.foldl (fun acc k => if k ∈ acc then acc else acc ++ [k]) []

end Page

/-! ## Concrete inputs used by the closed theorems -/

/-- A single concrete track: loudness -30 dB, tempo 120 BPM. -/
def sampleSong : Song :=
  { id := ("t1").toList
    name := ("Track One").toList
    acousticness := 1/2
    danceability := 7/10
    energy := 3/5
    instrumentalness := 0
    liveness := 1/10
    valence := 2/5
    duration_ms := 200000
    loudness := -30
    tempo := 120
    key := 5 }

/-- The 100 BPM track of the tempo-aggregation scenario. -/
def songAt100 : Song := { sampleSong with id := ("t100").toList, tempo := 100 }

/-- The 140 BPM track of the tempo-aggregation scenario. -/
def songAt140 : Song := { sampleSong with id := ("t140").toList, tempo := 140 }

/-- A 40 BPM track, below the 60-180 BPM window, so its normalization clamps. -/
def songAt40 : Song := { sampleSong with id := ("t40").toList, tempo := 40 }

/-! ## C10 -/

/-- C10: the base text-matching score at the start of `getMatchScore` is
always 10000 or 0: the 8000 prefix tier and the 6000 substring tier are dead
code, because a prefix or containment relation between the two normalized
names in either direction already makes `compareNames` return true and so
selects the 10000 branch. -/
theorem baseTextScore_ten_thousand_or_zero :
    ∀ (result : Search.SearchResult) (query : Str),
      Search.baseTextScore result query = 10000 ∨ Search.baseTextScore result query = 0 := by
  intro r q
  cases hcmp : Search.compareNames r.name q with
  | true => exact Or.inl (by simp [Search.baseTextScore, hcmp])
  | false =>
    right
    simp only [Search.compareNames, jsIncludes, Bool.or_eq_false_iff,
      beq_eq_false_iff_ne, ne_eq, decide_eq_false_iff_not] at hcmp
    obtain ⟨⟨⟨⟨heq, hinf1⟩, hinf2⟩, hthe1⟩, hthe2⟩ := hcmp
    have hpre1 : ¬(normalizeSearchString q <+: normalizeSearchString r.name) :=
      fun h => hinf1 h.isInfix
    have hpre2 : ¬(normalizeSearchString r.name <+: normalizeSearchString q) :=
      fun h => hinf2 h.isInfix
    simp [Search.baseTextScore, Search.compareNames, jsIncludes, jsStartsWith,
      hinf1, hinf2, hpre1, hpre2, heq, hthe1, hthe2]
    exact ⟨fun h => hthe1 h, fun h => hthe2 h⟩

/-! ## C5 -/

/-- The base text-matching score depends only on the candidate's name. -/
lemma baseTextScore_eq_of_name_eq (r1 r2 : Search.SearchResult) (query : Str)
    (h : r1.name = r2.name) :
    Search.baseTextScore r1 query = Search.baseTextScore r2 query := by
  simp [Search.baseTextScore, h]

/-- C5: for two album candidates identical except in their popularity field
(same name and same associated artists, so the two take the same scoring
branch of `getMatchScore`), the candidate with the higher popularity scores at
least as high, for every query and every log function. -/
theorem getMatchScore_album_popularity_mono
    (jlog : ℚ → ℚ) (r1 r2 : Search.SearchResult) (query : Str)
    (ht1 : r1.type = Search.EntityType.album) (ht2 : r2.type = Search.EntityType.album)
    (hname : r1.name = r2.name) (hartists : r1.artists = r2.artists)
    (hpop : r2.popularity.getD 0 ≤ r1.popularity.getD 0) :
    Search.getMatchScore jlog r2 query ≤ Search.getMatchScore jlog r1 query := by
  have hb : Search.baseTextScore r1 query = Search.baseTextScore r2 query :=
    baseTextScore_eq_of_name_eq r1 r2 query hname
  have h100 : r2.popularity.getD 0 * 100 ≤ r1.popularity.getD 0 * 100 :=
    mul_le_mul_of_nonneg_right hpop (by norm_num)
  have h50 : r2.popularity.getD 0 * 50 ≤ r1.popularity.getD 0 * 50 :=
    mul_le_mul_of_nonneg_right hpop (by norm_num)
  have h30 : r2.popularity.getD 0 * 30 ≤ r1.popularity.getD 0 * 30 :=
    mul_le_mul_of_nonneg_right hpop (by norm_num)
  simp only [Search.getMatchScore, ht1, ht2, hname, hartists, hb]
  split_ifs <;> first
    | linarith
    | exact add_le_add (add_le_add le_rfl h50) le_rfl

/-- C5 witness: two concrete album candidates for the query "abbey road",
identical except for popularity 80 versus 30. -/
theorem getMatchScore_album_popularity_mono_witness :
    Search.getMatchScore (fun _ => 0)
        { id := ("al2").toList, type := Search.EntityType.album,
          name := ("Abbey Road").toList,
          artists := some [{ name := ("The Beatles").toList }],
          followers := none, popularity := some 30 }
        (("abbey road").toList)
      ≤ Search.getMatchScore (fun _ => 0)
          { id := ("al1").toList, type := Search.EntityType.album,
            name := ("Abbey Road").toList,
            artists := some [{ name := ("The Beatles").toList }],
            followers := none, popularity := some 80 }
          (("abbey road").toList) :=
  getMatchScore_album_popularity_mono (fun _ => 0)
    { id := ("al1").toList, type := Search.EntityType.album,
      name := ("Abbey Road").toList,
      artists := some [{ name := ("The Beatles").toList }],
      followers := none, popularity := some 80 }
    { id := ("al2").toList, type := Search.EntityType.album,
      name := ("Abbey Road").toList,
      artists := some [{ name := ("The Beatles").toList }],
      followers := none, popularity := some 30 }
    (("abbey road").toList) rfl rfl rfl rfl (by norm_num)

/-! ## C6 -/

/-- The baseline `max(floorConstant, 1 / n^exponent)` is non-increasing in the
collection size, for any nonnegative exponent and any floor constant. -/
lemma baseOpacity_mono (e c : ℝ) (he : 0 ≤ e) (m n : ℕ) (h1 : 1 ≤ m) (hmn : m ≤ n) :
    max c (1 / (n : ℝ) ^ e) ≤ max c (1 / (m : ℝ) ^ e) := by
  apply max_le_max le_rfl
  have hm0 : (0 : ℝ) < (m : ℝ) := by exact_mod_cast Nat.lt_of_lt_of_le Nat.zero_lt_one h1
  apply one_div_le_one_div_of_le (Real.rpow_pos_of_pos hm0 e)
  exact Real.rpow_le_rpow (le_of_lt hm0) (by exact_mod_cast hmn) he

/-- C6: the non-hover fill and stroke opacities of `getOpacityScale` are
monotonically non-increasing in the collection size, in both component
variants: for integer sizes `1 ≤ m ≤ n`, the fill and stroke opacities at
`n` are at most those at `m`. -/
theorem getOpacityScale_fill_stroke_antitone (m n : ℕ) (h1 : 1 ≤ m) (hmn : m ≤ n) :
    (Viz3.getOpacityScale n).fill ≤ (Viz3.getOpacityScale m).fill
      ∧ (Viz3.getOpacityScale n).stroke ≤ (Viz3.getOpacityScale m).stroke
      ∧ (Viz2.getOpacityScale n).fill ≤ (Viz2.getOpacityScale m).fill
      ∧ (Viz2.getOpacityScale n).stroke ≤ (Viz2.getOpacityScale m).stroke := by
  have h5 := baseOpacity_mono 0.5 0.004 (by norm_num) m n h1 hmn
  have h6 := baseOpacity_mono 0.6 0.008 (by norm_num) m n h1 hmn
  refine ⟨?_, ?_, ?_, ?_⟩ <;>
    simp only [Viz3.getOpacityScale, Viz2.getOpacityScale] <;>
    exact mul_le_mul_of_nonneg_right (by assumption) (by norm_num)

/-- C6 witness: the monotonicity theorem applied at the concrete sizes 2 and 4. -/
theorem getOpacityScale_fill_stroke_antitone_witness :
    (Viz3.getOpacityScale ((4 : ℕ) : ℝ)).fill ≤ (Viz3.getOpacityScale ((2 : ℕ) : ℝ)).fill
      ∧ (Viz3.getOpacityScale ((4 : ℕ) : ℝ)).stroke ≤ (Viz3.getOpacityScale ((2 : ℕ) : ℝ)).stroke
      ∧ (Viz2.getOpacityScale ((4 : ℕ) : ℝ)).fill ≤ (Viz2.getOpacityScale ((2 : ℕ) : ℝ)).fill
      ∧ (Viz2.getOpacityScale ((4 : ℕ) : ℝ)).stroke ≤ (Viz2.getOpacityScale ((2 : ℕ) : ℝ)).stroke :=
  getOpacityScale_fill_stroke_antitone 2 4 (by norm_num) (by norm_num)

/-! ## C8 -/

/-- The key sequence of a Map after one insertion: unchanged for an existing
key, extended by the new key otherwise. -/
lemma mapInsert_map_fst (m : List (Str × Page.Track)) (t : Page.Track) :
    (Page.mapInsert m t).map Prod.fst
      = if t.id ∈ m.map Prod.fst then m.map Prod.fst
        else m.map Prod.fst ++ [t.id] := by
  unfold Page.mapInsert
  split_ifs with h
  · rw [List.map_map]
    exact List.map_congr_left (fun p _ => by by_cases hp : p.1 = t.id <;> simp [hp])
  · simp

/-- The key sequence of the whole Map build is the fold that appends each
still-unseen identifier. -/
lemma foldl_mapInsert_map_fst (ts : List Page.Track) (m : List (Str × Page.Track)) :
    (ts.foldl Page.mapInsert m).map Prod.fst
      = ts.foldl (fun acc t => if t.id ∈ acc then acc else acc ++ [t.id]) (m.map Prod.fst) := by
  induction ts generalizing m with
  | nil => rfl
  | cons t ts ih =>
    simp only [List.foldl_cons]
    rw [ih, mapInsert_map_fst]

/-- Every entry of the built Map stores a track whose identifier is its key. -/
lemma foldl_mapInsert_snd_id (ts : List Page.Track) (m : List (Str × Page.Track))
    (hm : ∀ p ∈ m, (Prod.snd p).id = p.1) :
    ∀ p ∈ ts.foldl Page.mapInsert m, (Prod.snd p).id = p.1 := by
  induction ts generalizing m with
  | nil => exact hm
  | cons t ts ih =>
    simp only [List.foldl_cons]
    apply ih
    intro p hp
    unfold Page.mapInsert at hp
    split_ifs at hp with h
    · rcases List.mem_map.mp hp with ⟨q, hq, rfl⟩
      by_cases hq1 : q.1 = t.id
      · simp [hq1]
      · simp only [if_neg hq1]
        exact hm q hq
    · rcases List.mem_append.mp hp with h1 | h1
      · exact hm p h1
      · simp only [List.mem_singleton] at h1
        subst h1
        rfl

/-- Every value stored in the built Map comes from the initial Map or from
the inserted track list. -/
lemma foldl_mapInsert_snd_mem (ts : List Page.Track) (m : List (Str × Page.Track)) :
    ∀ p ∈ ts.foldl Page.mapInsert m,
      (Prod.snd p) ∈ m.map Prod.snd ∨ (Prod.snd p) ∈ ts := by
  induction ts generalizing m with
  | nil =>
    intro p hp
    exact Or.inl (List.mem_map_of_mem Prod.snd hp)
  | cons t ts ih =>
    intro p hp
    simp only [List.foldl_cons] at hp
    rcases ih (Page.mapInsert m t) p hp with h1 | h1
    · unfold Page.mapInsert at h1
      split_ifs at h1 with h
      · rw [List.map_map] at h1
        rcases List.mem_map.mp h1 with ⟨q, hq, hval⟩
        by_cases hq1 : q.1 = t.id
        · simp only [Function.comp, if_pos hq1] at hval
          right
          rw [← hval]
          exact List.mem_cons_self t ts
        · simp only [Function.comp, if_neg hq1] at hval
          left
          rw [← hval]
          exact List.mem_map_of_mem Prod.snd hq
      · rw [List.map_append] at h1
        rcases List.mem_append.mp h1 with h2 | h2
        · exact Or.inl h2
        · simp only [List.map_cons, List.map_nil, List.mem_singleton] at h2
          right
          rw [h2]
          exact List.mem_cons_self t ts
    · exact Or.inr (List.mem_cons_of_mem t h1)

/-- The append-if-unseen key fold keeps the key list duplicate-free. -/
lemma foldl_keyAppend_nodup (ts : List Page.Track) (acc : List Str) (h : acc.Nodup) :
    (ts.foldl (fun acc t => if t.id ∈ acc then acc else acc ++ [t.id]) acc).Nodup := by
  induction ts generalizing acc with
  | nil => exact h
  | cons t ts ih =>
    simp only [List.foldl_cons]
    by_cases ht : t.id ∈ acc
    · rw [if_pos ht]
      exact ih acc h
    · rw [if_neg ht]
      apply ih
      simp [List.nodup_append, h, ht]

/-- C8: the deduplication step before feature lookup
(`Array.from(new Map(tracks.map(track => [track.id, track])).values())`)
keys on the track identifier: every element of the result comes from the
input list, the result's identifier sequence is exactly the input's
identifiers in order of first occurrence, and it contains each identifier
exactly once. -/
theorem uniqueTracks_dedups_by_id_in_first_occurrence_order :
    ∀ ts : List Page.Track,
      (∀ t ∈ Page.uniqueTracks ts, t ∈ ts)
        ∧ (Page.uniqueTracks ts).map Page.Track.id
            = Page.specFirstOccurrenceKeys (ts.map Page.Track.id)
        ∧ ((Page.uniqueTracks ts).map Page.Track.id).Nodup := by
  intro ts
  have hids : ∀ p ∈ ts.foldl Page.mapInsert [], (Prod.snd p).id = p.1 :=
    foldl_mapInsert_snd_id ts [] (by simp)
  have hmapid : (Page.uniqueTracks ts).map Page.Track.id
      = (ts.foldl Page.mapInsert []).map Prod.fst := by
    unfold Page.uniqueTracks
    rw [List.map_map]
    exact List.map_congr_left (fun p hp => hids p hp)
  refine ⟨?_, ?_, ?_⟩
  · intro t ht
    unfold Page.uniqueTracks at ht
    rcases List.mem_map.mp ht with ⟨p, hp, rfl⟩
    rcases foldl_mapInsert_snd_mem ts [] p hp with h | h
    · simp at h
    · exact h
  · rw [hmapid, foldl_mapInsert_map_fst]
    unfold Page.specFirstOccurrenceKeys
    rw [List.foldl_map]
    rfl
  · rw [hmapid, foldl_mapInsert_map_fst]
    exact foldl_keyAppend_nodup ts [] List.nodup_nil

/-! ## C9 -/

/-- C9: `isLikelyAlbumSearch "Abbey Road"` is true, through exact membership
of the normalized query in the curated known-album set, and
`isLikelyAlbumSearch "Radiohead"` is false: no album-indicator substring
occurs in it and it is not a known album title. -/
theorem isLikelyAlbumSearch_abbey_road_true_radiohead_false :
    Search.isLikelyAlbumSearch (("Abbey Road").toList) = true
      ∧ Search.knownAlbums.contains (normalizeSearchString (("Abbey Road").toList)) = true
      ∧ Search.isLikelyAlbumSearch (("Radiohead").toList) = false
      ∧ Search.albumIndicators.any
          (fun indicator => jsIncludes (normalizeSearchString (("Radiohead").toList)) indicator) = false
      ∧ Search.knownAlbums.contains (normalizeSearchString (("Radiohead").toList)) = false := by
  decide

/-! ## C7 -/

/-- Trimming a string whose characters are all whitespace leaves nothing. -/
lemma jsTrim_eq_nil_of_all_ws (q : Str) (hws : ∀ c ∈ q, jsIsWs c = true) :
    jsTrim q = [] := by
  have h1 : q.dropWhile jsIsWs = [] := List.dropWhile_eq_nil_iff.mpr hws
  simp [jsTrim, h1]

/-- C7: for every query that is empty or consists only of whitespace, `search`
short-circuits: it yields the empty result sequence and does not invoke the
external API (the Boolean component of the result records the API call),
whatever the API, the selection state and the log function are. -/
theorem search_whitespace_query_short_circuits
    (jlog : ℚ → ℚ) (api : Str → List Search.SearchResult × List Search.SearchResult)
    (selectedItem : Option Search.SearchResult) (query : Str)
    (hws : ∀ c ∈ query, jsIsWs c = true) :
    Search.search jlog api selectedItem query = ([], false) := by
  have ht : jsTrim query = [] := jsTrim_eq_nil_of_all_ws query hws
  simp [Search.search, ht]

/-- C7 witness: the short-circuit theorem at the concrete two-space query,
with a nonempty API response that is therefore never consulted. -/
theorem search_whitespace_query_short_circuits_witness :
    Search.search (fun _ => 0)
        (fun _ => ([{ id := ("a").toList, type := Search.EntityType.artist, name := ("a").toList,
                      artists := none, followers := none, popularity := none }], []))
        none (("  ").toList)
      = ([], false) :=
  search_whitespace_query_short_circuits (fun _ => 0)
    (fun _ => ([{ id := ("a").toList, type := Search.EntityType.artist, name := ("a").toList,
                  artists := none, followers := none, popularity := none }], []))
    none (("  ").toList) (by decide)

/-! ## C4 -/

/-- C4: `getAveragePath` of an empty collection is null: the
`if (!songs.length) return null` guard fires before any division by the
collection size, for every chart radius. -/
theorem getAveragePath_empty_returns_none :
    ∀ radius : ℚ, Viz3.getAveragePath radius [] = none ∧ Viz3.getAverageRecord [] = none := by
  intro radius
  exact ⟨rfl, rfl⟩

/-! ## C3 -/

/-- C3: `normalizeValue` is a total function of the feature inputs. For every
track the tempo result is clamped into [0,1] (in both component variants),
while the loudness result is exactly `(loudness + 60) / 60` with no clamping,
so loudness below -60 dB produces a negative result and loudness above 0 dB a
result above 1. -/
theorem normalizeValue_tempo_clamped_loudness_unclamped :
    ∀ s : Song,
      (0 ≤ Viz3.normalizeValue (Viz3.SongOrRec.song s) Feature.tempo
        ∧ Viz3.normalizeValue (Viz3.SongOrRec.song s) Feature.tempo ≤ 1)
      ∧ Viz3.normalizeValue (Viz3.SongOrRec.song s) Feature.loudness = (s.loudness + 60) / 60
      ∧ (s.loudness < -60 → Viz3.normalizeValue (Viz3.SongOrRec.song s) Feature.loudness < 0)
      ∧ (0 < s.loudness → 1 < Viz3.normalizeValue (Viz3.SongOrRec.song s) Feature.loudness)
      ∧ (0 ≤ Viz2.normalizeValue s Feature.tempo ∧ Viz2.normalizeValue s Feature.tempo ≤ 1)
      ∧ Viz2.normalizeValue s Feature.loudness = (s.loudness + 60) / 60 := by
  intro s
  refine ⟨⟨le_max_left 0 _, ?_⟩, rfl, ?_, ?_, ⟨le_max_left 0 _, ?_⟩, rfl⟩
  · exact max_le (by norm_num) (min_le_left 1 _)
  · intro h
    show (s.loudness + 60) / 60 < 0
    linarith
  · intro h
    show (1 : ℚ) < (s.loudness + 60) / 60
    linarith
  · exact max_le (by norm_num) (min_le_left 1 _)

/-! ## C2 -/

/-- C2 counterexample: for raw tempos 100 BPM and 140 BPM the normalization is
affine on the whole segment (no clamping applies), so normalizing the raw
average produces exactly the average of the two independently normalized
values — both are 1/2, contrary to the claim that the two quantities differ. -/
theorem tempo_normalize_of_average_coincides_at_100_140 :
    (Viz3.getAverageRecord [songAt100, songAt140]).map
        (fun r => Viz3.normalizeValue (Viz3.SongOrRec.record r) Feature.tempo)
      = some ((Viz3.normalizeValue (Viz3.SongOrRec.song songAt100) Feature.tempo
          + Viz3.normalizeValue (Viz3.SongOrRec.song songAt140) Feature.tempo) / 2) := by
  simp only [Viz3.getAverageRecord, Viz3.normalizeValue, songAt100, songAt140, sampleSong]
  simp [min_def, max_def]
  all_goals norm_num

/-- C2 amended: `getAveragePath` does compute the tempo axis by normalizing
the raw average — the averaged record's tempo entry is the raw 120 BPM and
its projection normalizes it to 1/2 — but at 100/140 BPM that value coincides
with the average of the two independently normalized tempos; the two
aggregation orders differ only when clamping is active, as at 40 and 100 BPM
(1/12 versus 1/6). -/
theorem tempo_axis_normalizes_raw_average :
    (Viz3.getAverageRecord [songAt100, songAt140]).map (fun r => r Feature.tempo) = some 120
      ∧ (Viz3.getAverageRecord [songAt100, songAt140]).map
          (fun r => Viz3.normalizeValue (Viz3.SongOrRec.record r) Feature.tempo) = some (1/2)
      ∧ (Viz3.getAverageRecord [songAt40, songAt100]).map
          (fun r => Viz3.normalizeValue (Viz3.SongOrRec.record r) Feature.tempo) = some (1/12)
      ∧ (Viz3.normalizeValue (Viz3.SongOrRec.song songAt40) Feature.tempo
          + Viz3.normalizeValue (Viz3.SongOrRec.song songAt100) Feature.tempo) / 2 = 1/6
      ∧ ((1 : ℚ)/12) ≠ 1/6 := by
  simp only [Viz3.getAverageRecord, Viz3.normalizeValue, songAt100, songAt140, songAt40,
    sampleSong]
  simp [min_def, max_def]
  all_goals norm_num

/-! ## C1 -/

/-- C1: for the single-track collection `[sampleSong]` the averaged path does
NOT reproduce the track's own projected path: the averaged record stores the
already-normalized loudness 1/2, and projecting the record re-applies
`(value + 60) / 60`, yielding 121/120 on the loudness axis, while every other
feature agrees exactly. The radii lists (hence the emitted path strings)
therefore differ. -/
theorem getAveragePath_single_track_loudness_double_normalized :
    Viz3.getAveragePath 340 [sampleSong]
        ≠ some (Viz3.pathRadii 340 (Viz3.SongOrRec.song sampleSong))
      ∧ (Viz3.getAverageRecord [sampleSong]).map
          (fun r => Viz3.normalizeValue (Viz3.SongOrRec.record r) Feature.loudness)
        = some (121/120)
      ∧ Viz3.normalizeValue (Viz3.SongOrRec.song sampleSong) Feature.loudness = 1/2
      ∧ (Viz3.getAverageRecord [sampleSong]).map
          (fun r => Viz3.normalizeValue (Viz3.SongOrRec.record r) Feature.tempo)
        = some (Viz3.normalizeValue (Viz3.SongOrRec.song sampleSong) Feature.tempo)
      ∧ (Viz3.getAverageRecord [sampleSong]).map
          (fun r => Viz3.normalizeValue (Viz3.SongOrRec.record r) Feature.danceability)
        = some (Viz3.normalizeValue (Viz3.SongOrRec.song sampleSong) Feature.danceability)
      ∧ (Viz3.getAverageRecord [sampleSong]).map
          (fun r => Viz3.normalizeValue (Viz3.SongOrRec.record r) Feature.energy)
        = some (Viz3.normalizeValue (Viz3.SongOrRec.song sampleSong) Feature.energy)
      ∧ (Viz3.getAverageRecord [sampleSong]).map
          (fun r => Viz3.normalizeValue (Viz3.SongOrRec.record r) Feature.acousticness)
        = some (Viz3.normalizeValue (Viz3.SongOrRec.song sampleSong) Feature.acousticness)
      ∧ (Viz3.getAverageRecord [sampleSong]).map
          (fun r => Viz3.normalizeValue (Viz3.SongOrRec.record r) Feature.valence)
        = some (Viz3.normalizeValue (Viz3.SongOrRec.song sampleSong) Feature.valence)
      ∧ (Viz3.getAverageRecord [sampleSong]).map
          (fun r => Viz3.normalizeValue (Viz3.SongOrRec.record r) Feature.duration)
        = some (Viz3.normalizeValue (Viz3.SongOrRec.song sampleSong) Feature.duration) := by
  simp only [Viz3.getAveragePath, Viz3.getAverageRecord, Viz3.pathRadii, Viz3.radialScale,
    Viz3.normalizeValue, FEATURES, sampleSong]
  simp [min_def, max_def]
  all_goals norm_num
